import Mathlib

/-!
# Verification of the Jester CLI (`jester.py`)

A shallow embedding of `jester.py` in Lean 4, together with theorems that
settle the frozen claims about the program.

Modelling conventions:
* PIL images are pixel grids: an RGB image is a `List (List (Nat × Nat × Nat))`
  (row major), a single-channel image is a `List (List Nat)` of byte values.
  `Image.convert`, `Image.point` and `ImageFilter.SHARPEN` are modelled from
  Pillow's documented fixed-point semantics.
* The remote endpoint reached by `requests.post` is modelled by a `Transport`
  value describing the behaviour of the single request a run performs:
  a raised exception, or a response with a status code and a body
  (`none` when the body fails JSON decoding).  Python values flowing out of
  `response.json()` are modelled by the inductive `PyJson`.
* Fallible Python code is embedded in `Except String`, a raised exception
  being an `Except.error` carrying the rendered message.
* The process pool of `executor.map` is modelled by tagging each unit of work
  with its index, running the workers in an arbitrary completion order, and
  collecting the results back in submission order (`runWorkers` /
  `collectResults`), which is the semantics of `list(executor.map ...)`.
* `main` is embedded as `mainRun`, a function from an environment (the
  configuration, transport behaviour, clock and history file contents) and the
  parsed arguments to the trace of observable effects, the final history-file
  contents, and an optional uncaught exception.
-/

/-- Python values produced by `response.json()`: the JSON fragment of Python's
data model that `ask_ai` can touch and return. -/
inductive PyJson where
  | null : PyJson
  | str (s : String) : PyJson
  | num (n : Int) : PyJson
  | arr (xs : List PyJson) : PyJson
  | obj (fields : List (String × PyJson)) : PyJson

/-- `true` exactly when the Python value is a `str`. -/
def PyJson.isStr : PyJson → Bool
  | .str _ => true
  | _ => false

/-- Behaviour of the remote chat-completion endpoint for the single
`requests.post` call a run performs: the call raises (network failure), or a
response arrives with a status code and a body; `body = none` models a body
on which `response.json()` raises `JSONDecodeError`. -/
inductive Transport where
  | raises (msg : String) : Transport
  | responds (status : Nat) (body : Option PyJson) : Transport

/-- Python `j["k"]` subscription on a decoded JSON value: succeeds on an
object having the key, raises `KeyError` / `TypeError` otherwise. -/
def jsonGet (j : PyJson) (k : String) : Except String PyJson :=
  match j with
  | .obj fields =>
    match fields.find? (fun p => p.1 == k) with
    | some p => .ok p.2
    | none => .error ("KeyError: " ++ k)
  | _ => .error "TypeError: value is not subscriptable by a string key"

/-- Python `j[i]` subscription by integer index: succeeds on a list that is
long enough, raises `IndexError` / `TypeError` otherwise. -/
def jsonIdx (j : PyJson) (i : Nat) : Except String PyJson :=
  match j with
  | .arr xs =>
    match xs.get? i with
    | some x => .ok x
    | none => .error "IndexError: list index out of range"
  | _ => .error "TypeError: value is not subscriptable by an integer index"

/-- `response.raise_for_status()`: raises `HTTPError` exactly for status codes
400–599, as the `requests` library does. -/
def raiseForStatus (status : Nat) : Except String Unit :=
  if 400 ≤ status ∧ status < 600 then
    .error ("HTTPError: status " ++ toString status)
  else
    .ok ()

/-- The body of the `try:` block of `ask_ai`: post the request, check the
status, decode the body and extract `["choices"][0]["message"]["content"]`.
Every Python exception surfaces as an `Except.error`. -/
def askAiCore (t : Transport) : Except String PyJson :=
  match t with
  | .raises msg => .error msg
  | .responds status body =>
    match raiseForStatus status with
    | .error e => .error e
    | .ok _ =>
      match body with
      | none => .error "JSONDecodeError: Expecting value"
      | some j =>
        match jsonGet j "choices" with
        | .error e => .error e
        | .ok choices =>
          match jsonIdx choices 0 with
          | .error e => .error e
          | .ok choice =>
            match jsonGet choice "message" with
            | .error e => .error e
            | .ok message => jsonGet message "content"

/-- `ask_ai(prompt)`: returns the extracted content value, or — when anything
in the `try:` block raised — the string `"Error contacting model: {e}"`.
The `prompt` argument is what the request sends; the transport models the
endpoint's behaviour for this one call. -/
def ask_ai (t : Transport) (prompt : String) : PyJson :=
  match askAiCore t with
  | .ok v => v
  | .error e => .str ("Error contacting model: " ++ e)

/-! ## Image model (Pillow operations used by `preprocess_image`) -/

/-- An RGB raster: rows of `(r, g, b)` byte triples. -/
abbrev RGBImage := List (List (Nat × Nat × Nat))

/-- A single-channel raster: rows of byte values. -/
abbrev GrayImage := List (List Nat)

/-- Pillow `convert('L')` per pixel: ITU-R 601-2 luma in the fixed-point
arithmetic of Pillow's `convert.c` (`(19595 r + 38470 g + 7471 b) >> 16`). -/
def lumPix (p : Nat × Nat × Nat) : Nat :=
  (19595 * p.1 + 38470 * p.2.1 + 7471 * p.2.2) / 65536

/-- `image.convert('L')` on an RGB raster. -/
def convertL (img : RGBImage) : GrayImage :=
  img.map (fun row => row.map lumPix)

/-- The lookup table of `img.point(lambda x: 0 if x < 140 else 255, '1')`. -/
def binarizePix (x : Nat) : Nat :=
  if x < 140 then 0 else 255

/-- `img.point(lambda x: 0 if x < 140 else 255, '1')`: threshold every pixel. -/
def binarize (g : GrayImage) : GrayImage :=
  g.map (fun row => row.map binarizePix)

/-- Pixel access with Pillow-filter edge behaviour folded in: out-of-range
reads return 0 (they are never reached on in-range coordinates). -/
def gpix (g : GrayImage) (y x : Nat) : Nat :=
  (g.getD y []).getD x 0

/-- The width Pillow reports for a rectangular raster (its first row). -/
def imgWidth {α : Type} (g : List (List α)) : Nat :=
  (g.headD []).length

/-- A raster is rectangular: every row has the reported width. -/
def Rect {α : Type} (g : List (List α)) : Prop :=
  ∀ row ∈ g, row.length = imgWidth g

/-- One interior pixel of `ImageFilter.SHARPEN` (3×3 kernel
`(-2 … -2, 32, -2 … -2)`, divisor 16, offset 0): Pillow computes the kernel
sum exactly (all the terms are multiples of 1/8, exact in float32), clips
negatives to 0, values ≥ 255 to 255, and truncates the rest to an integer. -/
def sharpenPix (g : GrayImage) (y x : Nat) : Nat :=
  let c : Int := gpix g y x
  let nb : Int :=
    (gpix g (y-1) (x-1) : Int) + gpix g (y-1) x + gpix g (y-1) (x+1) +
    gpix g y (x-1) + gpix g y (x+1) +
    gpix g (y+1) (x-1) + gpix g (y+1) x + gpix g (y+1) (x+1)
  let v : Int := 32 * c - 2 * nb
  if v ≤ 0 then 0 else min 255 (v.toNat / 16)

/-- `img.filter(ImageFilter.SHARPEN)`: images smaller than the kernel are
copied unchanged, the one-pixel border is copied from the input, interior
pixels are convolved (Pillow's `ImagingFilter3x3`). -/
def sharpen (g : GrayImage) : GrayImage :=
  let h := g.length
  let w := imgWidth g
  if h < 3 ∨ w < 3 then g
  else
    (List.range h).map (fun y =>
      (List.range w).map (fun x =>
        if y = 0 ∨ y = h - 1 ∨ x = 0 ∨ x = w - 1 then gpix g y x
        else sharpenPix g y x))

/-- `preprocess_image(image)`: greyscale, threshold at 140, sharpen. -/
def preprocess_image (image : RGBImage) : GrayImage :=
  sharpen (binarize (convertL image))

/-! ## Page OCR worker and the process pool -/

/-- `process_page_for_ocr(page_data)`: preprocess the page image, run
recognition (the external `pytesseract` engine is the oracle `ocr`, which may
raise), and tag the text with its 1-based page heading.  The worker receives
`(i, image)` from `enumerate(images)`. -/
def process_page_for_ocr (ocr : GrayImage → Except String String)
    (page_data : Nat × RGBImage) : Except String String :=
  match ocr (preprocess_image page_data.2) with
  | .error e => .error e
  | .ok text => .ok ("\n\n---\n\n## Page " ++ toString (page_data.1 + 1) ++ "\n" ++ text)

/-- The workers of `ProcessPoolExecutor`, finishing in the completion order
`order`: each finished worker contributes `(index, result)`. -/
def runWorkers (f : Nat × RGBImage → Except String String)
    (images : List RGBImage) (order : List Nat) : List (Nat × Except String String) :=
  order.map (fun i => (i, f (i, images.getD i [])))

/-- The completed result for submission index `i` (a missing index models a
future that never completes; it cannot happen when `order` covers `0..n-1`). -/
def resultOf (completed : List (Nat × Except String String)) (i : Nat) :
    Except String String :=
  match completed.find? (fun p => p.1 == i) with
  | some p => p.2
  | none => .error "worker result missing"

/-- Consuming `list(executor.map ...)`: results are yielded in submission
order and the first raising worker's exception propagates. -/
def collectSeq : List (Except String String) → Except String (List String)
  | [] => .ok []
  | .error e :: _ => .error e
  | .ok s :: rest =>
    match collectSeq rest with
    | .error e => .error e
    | .ok l => .ok (s :: l)

/-- `page_texts = list(executor.map(process_page_for_ocr, enumerate(images)))`
given the bag of completed `(index, result)` pairs. -/
def collectResults (n : Nat) (completed : List (Nat × Except String String)) :
    Except String (List String) :=
  collectSeq ((List.range n).map (resultOf completed))

/-! ## Path and string helpers (`os.path`, `str.strip`) -/

/-- `os.path.basename`: everything after the last separator. -/
def basename (p : String) : String :=
  String.mk ((p.toList.reverse.takeWhile (fun c => c ≠ '/')).reverse)

/-- The first component of `os.path.splitext`: drop the extension that starts
at the last dot, where the leading dots of a hidden file do not count. -/
def splitextBase (s : String) : String :=
  let cs := s.toList
  let leading := cs.takeWhile (fun c => c = '.')
  let rest := cs.drop leading.length
  if rest.contains '.' then
    String.mk (leading ++ ((rest.reverse.dropWhile (fun c => c ≠ '.')).drop 1).reverse)
  else s

/-- `os.path.join` of two components (POSIX flavour, `posixpath.join`): an
absolute second component replaces the whole path; otherwise the first
component contributes nothing when empty, and a single separator is added
unless it already ends with one. -/
def joinPath (a b : String) : String :=
  if b.toList.headD ' ' = '/' then b
  else if a = "" then b
  else if a.toList.getLastD ' ' = '/' then a ++ b
  else a ++ "/" ++ b

/-- Python `s.strip('"')`: remove leading and trailing double quotes. -/
def stripQuotes (s : String) : String :=
  String.mk (((s.toList.dropWhile (fun c => c = '"')).reverse.dropWhile
    (fun c => c = '"')).reverse)

/-- The characters Python `str.isspace()` accepts — the set `str.strip()`
removes: ASCII `\t \n \v \f \r`, space, the separators `\x1c`–`\x1f`, NEL,
NBSP, and the Unicode space characters. -/
def pyWhitespace (c : Char) : Bool :=
  (9 ≤ c.toNat && c.toNat ≤ 13) || c.toNat = 32 ||
  (28 ≤ c.toNat && c.toNat ≤ 31) || c.toNat = 133 || c.toNat = 160 ||
  c.toNat = 0x1680 || (0x2000 ≤ c.toNat && c.toNat ≤ 0x200a) ||
  c.toNat = 0x2028 || c.toNat = 0x2029 || c.toNat = 0x202f ||
  c.toNat = 0x205f || c.toNat = 0x3000

/-- Python `s.strip()`: remove leading and trailing whitespace. -/
def pyStrip (s : String) : String :=
  String.mk (((s.toList.dropWhile pyWhitespace).reverse.dropWhile
    pyWhitespace).reverse)

/-! ## Conversion driver -/

/-- Observable effects of a program run. -/
inductive Effect where
  | print (s : String) : Effect
  | netCall (prompt : String) : Effect
  | writeFile (path content : String) : Effect
  | historyAppend (timestamp prompt response : String) : Effect
deriving DecidableEq, Repr

/-- The cleanup instruction `convert_pdf_to_ai_markdown` sends to the model,
embedding the stripped aggregate OCR text. -/
def convPrompt (extracted_text : String) : String :=
  "The following text was extracted from a PDF using OCR. " ++
  "It may contain errors or formatting issues. " ++
  "Please clean it up, correct any obvious OCR mistakes, and format it into clear, well-structured markdown. " ++
  "Preserve the original intent and structure (headings, lists, paragraphs) as best as you can.\n\n" ++
  "--- OCR TEXT START ---\n" ++
  pyStrip extracted_text ++
  "\n--- OCR TEXT END ---"

/-- Environment of one `convert_pdf_to_ai_markdown` run: the behaviour of
`convert_from_path` (rasterization may raise), of the OCR engine, the pool's
completion order, the transport behind `ask_ai`, and the `input()` answer. -/
structure ConvEnv where
  rasterize : String → Except String (List RGBImage)
  ocr : GrayImage → Except String String
  order : List Nat
  transport : Transport
  userFilename : String

/-- Outcome of `convert_pdf_to_ai_markdown`: the effect trace and the file
write it performed, if any (`some (path, content)`). -/
structure ConvResult where
  effects : List Effect
  written : Option (String × String)
deriving DecidableEq, Repr

/-- `convert_pdf_to_ai_markdown(pdf_path, output_folder)`.  Everything runs
inside one `try:`; any raising step is reported as
`"Error processing PDF: {e}"` and nothing is written.  On success the AI
response is stripped and written to `<output_folder>/<filename>.md`, a blank
`input()` answer selecting `<basename>_AI_formatted`.  A non-`str` AI content
value raises `AttributeError` at `.strip()`, still inside the `try:`. -/
def convert_pdf_to_ai_markdown (env : ConvEnv) (pdf_path output_folder : String) :
    ConvResult :=
  let e0 : List Effect := [.print "Converting PDF to images (this may take a moment)..."]
  match env.rasterize pdf_path with
  | .error err => ⟨e0 ++ [.print ("Error processing PDF: " ++ err)], none⟩
  | .ok images =>
    let e1 := e0 ++ [.print "Extracting text from PDF pages (in parallel)..."]
    match collectResults images.length
        (runWorkers (process_page_for_ocr env.ocr) images env.order) with
    | .error err => ⟨e1 ++ [.print ("Error processing PDF: " ++ err)], none⟩
    | .ok page_texts =>
      let prompt := convPrompt (String.join page_texts)
      let e2 := e1 ++ [.netCall prompt]
      match ask_ai env.transport prompt with
      | .str markdown_content =>
        let suggested := splitextBase (basename pdf_path) ++ "_AI_formatted"
        let user := pyStrip env.userFilename
        let base := if user = "" then suggested else user
        let output_path := joinPath output_folder (base ++ ".md")
        ⟨e2 ++ [.writeFile output_path (pyStrip markdown_content),
                .print ("\nSuccessfully converted and saved to: " ++ output_path)],
         some (output_path, pyStrip markdown_content)⟩
      | _ =>
        ⟨e2 ++ [.print "Error processing PDF: AttributeError at strip"], none⟩

/-! ## `datetime` model and the history log -/

/-- A `datetime.datetime` value as produced by `datetime.now()`. -/
structure PyDateTime where
  year : Nat
  month : Nat
  day : Nat
  hour : Nat
  minute : Nat
  second : Nat
  microsecond : Nat
deriving DecidableEq, Repr

/-- The low decimal digit of `n`, as a character. -/
def digChar (n : Nat) : Char := Nat.digitChar (n % 10)

/-- `%02d` of a field (fields are in range, so the two digits are exact). -/
def dig2 (n : Nat) : List Char := [digChar (n / 10), digChar n]

/-- `%04d` of the year. -/
def dig4 (n : Nat) : List Char :=
  [digChar (n / 1000), digChar (n / 100), digChar (n / 10), digChar n]

/-- `%06d` of the microseconds. -/
def dig6 (n : Nat) : List Char :=
  [digChar (n / 100000), digChar (n / 10000), digChar (n / 1000),
   digChar (n / 100), digChar (n / 10), digChar n]

/-- `datetime.isoformat()`: `YYYY-MM-DDTHH:MM:SS`, extended with
`.ffffff` exactly when the microsecond field is nonzero. -/
def isoformat (d : PyDateTime) : String :=
  String.mk (dig4 d.year ++ '-' :: dig2 d.month ++ '-' :: dig2 d.day ++
    'T' :: dig2 d.hour ++ ':' :: dig2 d.minute ++ ':' :: dig2 d.second ++
    (if d.microsecond = 0 then [] else '.' :: dig6 d.microsecond))

/-- `datetime.strftime('%Y%m%d_%H%M%S')`, used for the default vault note name. -/
def strftimeStamp (d : PyDateTime) : String :=
  String.mk (dig4 d.year ++ dig2 d.month ++ dig2 d.day ++
    '_' :: dig2 d.hour ++ dig2 d.minute ++ dig2 d.second)

/-- A well-formed ISO-8601 timestamp as the spec demands of history entries:
`YYYY-MM-DDTHH:MM:SS` with an optional 6-digit fraction. -/
def isISO8601 (s : String) : Bool :=
  match s.toList with
  | [y1, y2, y3, y4, '-', m1, m2, '-', d1, d2, 'T',
     h1, h2, ':', n1, n2, ':', s1, s2] =>
    [y1, y2, y3, y4, m1, m2, d1, d2, h1, h2, n1, n2, s1, s2].all Char.isDigit
  | [y1, y2, y3, y4, '-', m1, m2, '-', d1, d2, 'T',
     h1, h2, ':', n1, n2, ':', s1, s2, '.', f1, f2, f3, f4, f5, f6] =>
    ([y1, y2, y3, y4, m1, m2, d1, d2, h1, h2, n1, n2, s1, s2].all Char.isDigit)
      && ([f1, f2, f3, f4, f5, f6].all Char.isDigit)
  | _ => false

/-- One element of the persisted `history.json` array. -/
structure HistoryEntry where
  timestamp : String
  prompt : String
  response : String
deriving DecidableEq, Repr

/-- `load_history()`: the decoded file contents, `[]` when the file does not
exist. -/
def load_history (file : Option (List HistoryEntry)) : List HistoryEntry :=
  file.getD []

/-- `save_history(entry)`: read the whole log, append the entry, rewrite the
file; the new file contents are returned. -/
def save_history (history : List HistoryEntry) (entry : HistoryEntry) :
    List HistoryEntry :=
  history ++ [entry]

/-! ## `main`: argument dispatch -/

/-- The parsed `argparse` namespace.  A value-taking flag is `none` when
absent; `--obsidian` is `some "last_output"` when supplied bare. -/
structure Args where
  summarize : Option String
  question : Option String
  quotes : Option String
  helpme : Bool
  neofetch : Bool
  generate : Option String
  wordfor : Option String
  dnd : Option String
  code : Option String
  convertnote : Option String
  obsidian : Option String
deriving DecidableEq, Repr

/-- Python truthiness of an optional string (`None` and `""` are falsy). -/
def optTruthy : Option String → Bool
  | none => false
  | some s => s != ""

/-- The prompt-template `if/elif` chain of `main`: the first truthy prompt
flag, in source order, selects the template; `none` means no valid command. -/
def promptOf (args : Args) : Option String :=
  if optTruthy args.summarize then
    some ("In markdown format: Summarize " ++ args.summarize.getD "" ++
      " into a medium length understandable form, around one or two paragraphs.")
  else if optTruthy args.question then
    some ("In markdown format: Quickly answer the question (1 line), then give a more detailed summary: "
      ++ args.question.getD "")
  else if optTruthy args.quotes then
    some ("In markdown format: Show 10 interesting quotes from \x27" ++
      args.quotes.getD "" ++ "\x27, with who said it, when, and some context.")
  else if optTruthy args.generate then
    some ("In markdown format: Generate something based on: " ++ args.generate.getD "")
  else if optTruthy args.wordfor then
    some ("In markdown format: Give 5 close matches, 5 far matches, 3 expressions, 2 metaphors, and 3 made-up fantasy-like words to explain: "
      ++ args.wordfor.getD "")
  else if optTruthy args.dnd then
    some ("In markdown format: Answer this D&D question simply, then give a detailed explanation: "
      ++ args.dnd.getD "")
  else if optTruthy args.code then
    some ("Make code for this problem in the language stated: " ++ args.code.getD "")
  else none

/-- The banner printed by `show_intro()`: the purple ANSI code, the raw ASCII
art block, and the reset code. -/
def introBanner : String :=
  "\x1b[95m" ++ "          \n" ++
  "⠀⠀⠀⠀⠀⠀⠀⠀⠀⠀⠀⠀⠀⠀⠀⣀⣤⣀⠀⠀⠀⠀⠀⠀⠀⠀⠀⠀⠀⠀\n" ++
  "⠀⠀⠀⠀⠀⠀⠀⠀⠀⠀⠀⠀⢀⣴⣿⣿⣿⠿⠛⠀⠀⠀⠀⠀⠀⠀⠀⠀⠀⠀\n" ++
  "⠀⠀⠀⠀⠀⢀⣤⣤⣦⣤⡀⠠⣿⣿⣿⠟⢁⣴⣾⣿⣿⣿⣷⣦⡀⠀⠀⠀⠀⠀\n" ++
  "⠀⠀⠀⢀⣴⣿⣿⣿⣿⣿⣿⣦⠈⠿⠃⣰⣿⣿⣿⣿⣿⣿⣿⣿⣷⡄⠀⠀⠀⠀\n" ++
  "⠀⠀⠀⣸⣿⣿⣿⣿⣿⣿⣿⣿⡗⢀⣼⣿⣿⣿⣿⣿⣿⣿⣿⣿⣿⣷⠀⠀⠀⠀\n" ++
  "⠀⠀⠀⣿⡿⠛⠿⣿⣿⣿⣿⡟⢀⣾⣿⣿⣿⣿⣿⣿⣿⣿⣿⣿⣿⣿⡄⠀⠀⠀\n" ++
  "⠀⠀⢸⠏⠀⠀⠀⠈⢻⣿⣿⢁⣾⣿⣿⣿⣿⣿⣿⡿⠋⣉⡉⠻⣿⣿⡇⠀⠀⠀\n" ++
  "⠀⠀⣈⠀⠀⠀⠀⠀⠈⣿⠃⣼⣿⣿⣿⣿⣿⣿⣿⠁⠘⢿⡇⠀⠈⢻⣿⠀⠀⠀\n" ++
  "⠀⢾⣿⡇⠀⠀⠀⠀⠀⠏⢰⣿⣿⣿⣿⣿⣿⣿⣿⠀⠀⢀⣀⣀⠀⠀⢻⠀⠀⠀\n" ++
  "⠀⠀⠉⠀⠀⠀⠀⠀⠀⠀⣿⣿⣿⣿⣿⣿⣿⣿⣿⣇⠀⠸⠿⠿⠀⠀⠈⠀⠀⠀\n" ++
  "⠀⠀⠀⠀⠀⠀⠀⠀⠀⣸⣿⣿⢿⣿⣿⣿⡿⣿⣿⣿⡄⠀⠀⠀⠀⠀⢠⣶⣆⠀\n" ++
  "⠀⠀⠀⠀⠀⠀⠀⢀⠀⣿⡿⢁⠘⣿⣿⣿⠁⡈⢻⣿⠃⣰⡄⠀⠀⠀⠘⠛⠋⠀\n" ++
  "⠀⠀⠀⠀⠀⠀⠀⣾⣆⠈⠁⣾⣦⠘⢿⠃⣰⣷⡄⠁⣰⣿⣿⣆⠀⠀⠀⠀⠀⠀\n" ++
  "⠀⠀⠀⠀⠀⠀⠀⣿⣿⣷⣤⣿⣿⣷⣤⣾⣿⣿⣷⣾⣿⠿⠿⠛⠀⠀⠀⠀⠀⠀\n" ++
  "⠀⠀⠀⠀⠀⠀⠀⠀⠉⠉⠉⠛⠛⠛⠋⠉⠉⠉⠉⠀⠀⠀⠀⠀⠀⠀⠀⠀⠀⠀\n" ++
  "    " ++ "\x1b[0m"

/-- The command table printed by `-hh`. -/
def helpText : String :=
  "\nCommands:\n" ++
  "  -s  --summarize   Summarize literature or a concept\n" ++
  "  -q  --question    Get a short answer + summary\n" ++
  "  -iq --quotes      Get interesting quotes from a book\n" ++
  "  -hh --helpme      Show this help menu\n" ++
  "  -nf --neofetch    Show Jester ASCII intro\n" ++
  "  -g  --generate    Create something (story, poem, etc.)\n" ++
  "  -w  --wordfor     Suggest a word or phrase\n" ++
  "  -cd --code        Help with code-related questions\n" ++
  "  -dm --dnd         Answer a Dungeons and Dragons question\n" ++
  "  -cv --convertnote Convert a PDF to clean, AI-formatted markdown and save to Obsidian\n" ++
  "  -o  --obsidian    Save the response to Obsidian (optional filename)\n" ++
  "        "

/-- The configuration-error line printed when `-cv` finds no vault path. -/
def vaultErrorMsg : String :=
  "Obsidian vault path not set. Add OBSIDIAN_VAULT_PATH to your .env file."

/-- The usage hint printed when no recognized flag is set. -/
def usageHint : String := "No valid command. Try `-hh` for help."

/-- Environment of one `main` invocation: the `OBSIDIAN_VAULT_PATH` variable,
the external behaviours the run can touch, the clock, and the contents of
`history.json` (`none` when the file does not exist). -/
structure MainEnv where
  vaultPath : Option String
  conv : ConvEnv
  transport : Transport
  now : PyDateTime
  historyFile : Option (List HistoryEntry)

/-- Outcome of one `main` invocation: the effect trace, the history-file
contents after the run, and the exception escaping `main`, if any. -/
structure MainOutcome where
  effects : List Effect
  history : List HistoryEntry
  uncaught : Option String
deriving Repr

/-- `main()` after argument parsing.  The branch order is the source order:
`neofetch`, `helpme`, `convertnote` (with its vault-path guard), then the
prompt-template chain; a prompt action asks the model, prints the stripped
response (raising `AttributeError` if the content value is not a string),
appends to the history, and finally honours `--obsidian`, whose
`os.path.join(None, ...)` raises `TypeError` when the vault path is unset. -/
def mainRun (env : MainEnv) (args : Args) : MainOutcome :=
  if args.neofetch then
    ⟨[.print introBanner, .print "Jester here. How may I serve thee?\n"],
     load_history env.historyFile, none⟩
  else if args.helpme then
    ⟨[.print helpText], load_history env.historyFile, none⟩
  else if optTruthy args.convertnote then
    if optTruthy env.vaultPath = false then
      ⟨[.print vaultErrorMsg], load_history env.historyFile, none⟩
    else
      let r := convert_pdf_to_ai_markdown env.conv
        (stripQuotes (args.convertnote.getD "")) (env.vaultPath.getD "")
      ⟨r.effects, load_history env.historyFile, none⟩
  else
    match promptOf args with
    | none => ⟨[.print usageHint], load_history env.historyFile, none⟩
    | some prompt =>
      match ask_ai env.transport prompt with
      | .str response =>
        let e1 : List Effect :=
          [.print "\n Thinking...\n", .netCall prompt,
           .print (" Response:\n" ++ pyStrip response)]
        let entry : HistoryEntry := ⟨isoformat env.now, prompt, response⟩
        let hist := save_history (load_history env.historyFile) entry
        let e2 := e1 ++ [.historyAppend entry.timestamp entry.prompt entry.response]
        if optTruthy args.obsidian then
          let fn := args.obsidian.getD ""
          let filename := if fn == "last_output"
            then "jester_" ++ strftimeStamp env.now else fn
          match env.vaultPath with
          | none =>
            ⟨e2, hist,
             some "TypeError: expected str, bytes or os.PathLike object, not NoneType"⟩
          | some v =>
            ⟨e2 ++ [.writeFile (joinPath v (filename ++ ".md")) response,
                    .print ("\nSaved to Obsidian as " ++ filename ++ ".md")],
             hist, none⟩
        else ⟨e2, hist, none⟩
      | _ =>
        ⟨[.print "\n Thinking...\n", .netCall prompt],
         load_history env.historyFile,
         some "AttributeError: the response value has no attribute strip"⟩

/-! ## Lemmas about the pool -/

/-- Looking a submitted index up among the completed workers finds that
worker's result, whatever the completion order. -/
theorem find?_runWorkers (f : Nat × RGBImage → Except String String)
    (images : List RGBImage) (order : List Nat) (i : Nat) (h : i ∈ order) :
    (runWorkers f images order).find? (fun p => p.1 == i) =
      some (i, f (i, images.getD i [])) := by
  induction order with
  | nil => cases h
  | cons j rest ih =>
    by_cases hij : j = i
    · subst hij
      simp [runWorkers, List.find?_cons_of_pos]
    · have hmem : i ∈ rest := by
        rcases List.mem_cons.mp h with h' | h'
        · exact absurd h'.symm hij
        · exact h'
      have := ih hmem
      simpa [runWorkers, List.find?_cons_of_neg, hij] using this

/-- `resultOf` after a full completion pass returns the worker's own result. -/
theorem resultOf_runWorkers (f : Nat × RGBImage → Except String String)
    (images : List RGBImage) (order : List Nat) (i : Nat) (h : i ∈ order) :
    resultOf (runWorkers f images order) i = f (i, images.getD i []) := by
  simp [resultOf, find?_runWorkers f images order i h]

/-- Collecting a list of successes succeeds with exactly those values. -/
theorem collectSeq_map_ok (l : List String) :
    collectSeq (l.map Except.ok) = Except.ok l := by
  induction l with
  | nil => rfl
  | cons s rest ih => simp [collectSeq, ih]

/-- Collecting a list that contains a failure fails. -/
theorem collectSeq_error_mem (es : List (Except String String)) (e : String)
    (h : Except.error e ∈ es) : ∃ e', collectSeq es = Except.error e' := by
  induction es with
  | nil => cases h
  | cons hd rest ih =>
    match hd with
    | .error e0 => exact ⟨e0, rfl⟩
    | .ok s =>
      have hmem : Except.error e ∈ rest := by
        rcases List.mem_cons.mp h with h' | h'
        · cases h'
        · exact h'
      rcases ih hmem with ⟨e', he'⟩
      simp [collectSeq, he']

/-- C1.  For every PDF with `N ≥ 0` pages and every OCR completion order (any
permutation of the page indices), the page texts collected by the pool in
`convert_pdf_to_ai_markdown` are exactly the `N` page sections in input page
order, the section of 0-based page `i` headed `## Page i+1`; the aggregate
document is their concatenation, independent of the completion order. -/
theorem c1_aggregate_in_page_order (t : GrayImage → String)
    (images : List RGBImage) (order : List Nat)
    (hperm : order.Perm (List.range images.length)) :
    collectResults images.length
        (runWorkers (process_page_for_ocr (fun g => Except.ok (t g))) images order)
      = Except.ok ((List.range images.length).map (fun i =>
          "\n\n---\n\n## Page " ++ toString (i + 1) ++ "\n" ++
            t (preprocess_image (images.getD i []))))
    ∧ ((List.range images.length).map (fun i =>
          "\n\n---\n\n## Page " ++ toString (i + 1) ++ "\n" ++
            t (preprocess_image (images.getD i [])))).length = images.length := by
  constructor
  · unfold collectResults
    have hmap : (List.range images.length).map
        (resultOf (runWorkers (process_page_for_ocr (fun g => Except.ok (t g))) images order)) =
        (List.range images.length).map (fun i =>
          Except.ok ("\n\n---\n\n## Page " ++ toString (i + 1) ++ "\n" ++
            t (preprocess_image (images.getD i [])))) := by
      apply List.map_congr_left
      intro i hi
      have hord : i ∈ order := hperm.mem_iff.mpr hi
      rw [resultOf_runWorkers _ _ _ _ hord]
      simp [process_page_for_ocr]
    rw [hmap]
    rw [show (List.range images.length).map (fun i =>
          Except.ok ("\n\n---\n\n## Page " ++ toString (i + 1) ++ "\n" ++
            t (preprocess_image (images.getD i [])))) =
        ((List.range images.length).map (fun i =>
          "\n\n---\n\n## Page " ++ toString (i + 1) ++ "\n" ++
            t (preprocess_image (images.getD i [])))).map Except.ok from by
      simp [List.map_map]]
    exact collectSeq_map_ok _
  · simp

/-- Three concrete one-pixel page images for exercising the pool. -/
def samplePages : List RGBImage :=
  [[[(0, 0, 0)]], [[(12, 34, 56)]], [[(255, 255, 255)]]]

/-- Witness for C1: three pages whose OCR all answers `"hello"`, completing
in the order 2, 0, 1, still collect as pages 1, 2, 3 in input order. -/
theorem c1_aggregate_in_page_order_witness :
    collectResults samplePages.length
        (runWorkers (process_page_for_ocr (fun _ => Except.ok "hello"))
          samplePages [2, 0, 1])
      = Except.ok ["\n\n---\n\n## Page 1\nhello", "\n\n---\n\n## Page 2\nhello",
                   "\n\n---\n\n## Page 3\nhello"] := by
  have h := (c1_aggregate_in_page_order (fun _ => "hello") samplePages [2, 0, 1]
    (by decide)).1
  exact h.trans (congrArg Except.ok (by decide))

/-- C3.  Any exception before the output file is opened — a rasterization
failure, a failed collection, or any single OCR worker failure — is caught by
`convert_pdf_to_ai_markdown`: the failure reason is printed and nothing is
written.  (Prompt assembly is pure string formatting and cannot raise.) -/
theorem c3_abort_without_output (env : ConvEnv) (pdf_path output_folder : String) :
    (∀ e, env.rasterize pdf_path = Except.error e →
      (convert_pdf_to_ai_markdown env pdf_path output_folder).written = none ∧
      (convert_pdf_to_ai_markdown env pdf_path output_folder).effects =
        [.print "Converting PDF to images (this may take a moment)...",
         .print ("Error processing PDF: " ++ e)])
    ∧ (∀ images e, env.rasterize pdf_path = Except.ok images →
        collectResults images.length
            (runWorkers (process_page_for_ocr env.ocr) images env.order)
          = Except.error e →
        (convert_pdf_to_ai_markdown env pdf_path output_folder).written = none ∧
        (convert_pdf_to_ai_markdown env pdf_path output_folder).effects =
          [.print "Converting PDF to images (this may take a moment)...",
           .print "Extracting text from PDF pages (in parallel)...",
           .print ("Error processing PDF: " ++ e)])
    ∧ (∀ images i e, env.rasterize pdf_path = Except.ok images →
        env.order.Perm (List.range images.length) →
        i < images.length →
        env.ocr (preprocess_image (images.getD i [])) = Except.error e →
        (convert_pdf_to_ai_markdown env pdf_path output_folder).written = none ∧
        ∃ e2, (convert_pdf_to_ai_markdown env pdf_path output_folder).effects =
          [.print "Converting PDF to images (this may take a moment)...",
           .print "Extracting text from PDF pages (in parallel)...",
           .print ("Error processing PDF: " ++ e2)]) := by
  refine ⟨?_, ?_, ?_⟩
  · intro e he
    simp [convert_pdf_to_ai_markdown, he]
  · intro images e hras hcol
    simp [convert_pdf_to_ai_markdown, hras, hcol]
  · intro images i e hras hperm hi hocr
    have hmem : Except.error e ∈ (List.range images.length).map
        (resultOf (runWorkers (process_page_for_ocr env.ocr) images env.order)) := by
      refine List.mem_map.mpr ⟨i, List.mem_range.mpr hi, ?_⟩
      rw [resultOf_runWorkers _ _ _ _ (hperm.mem_iff.mpr (List.mem_range.mpr hi))]
      have hocr' := hocr
      rw [List.getD_eq_getElem?_getD] at hocr'
      simp [process_page_for_ocr, hocr']
    rcases collectSeq_error_mem _ _ hmem with ⟨e2, he2⟩
    have hcol : collectResults images.length
        (runWorkers (process_page_for_ocr env.ocr) images env.order)
      = Except.error e2 := he2
    constructor
    · simp [convert_pdf_to_ai_markdown, hras, hcol]
    · exact ⟨e2, by simp [convert_pdf_to_ai_markdown, hras, hcol]⟩

/-- A conversion environment whose rasterizer raises. -/
def failingConvEnv : ConvEnv :=
  ⟨fun _ => Except.error "poppler not found", fun _ => Except.ok "",
   [], Transport.raises "unreachable", ""⟩

/-- Witness for C3: a failing rasterization is reported and nothing written. -/
theorem c3_abort_without_output_witness :
    (convert_pdf_to_ai_markdown failingConvEnv "doc.pdf" "vault").written = none ∧
    (convert_pdf_to_ai_markdown failingConvEnv "doc.pdf" "vault").effects =
      [.print "Converting PDF to images (this may take a moment)...",
       .print ("Error processing PDF: " ++ "poppler not found")] :=
  (c3_abort_without_output failingConvEnv "doc.pdf" "vault").1 "poppler not found" rfl

/-- C2 (amended).  `ask_ai` is a total function — no transport behaviour
makes it propagate an exception.  Whenever anything in its `try:` block
raises (network exception, HTTP 4xx/5xx, undecodable body, ill-shaped body),
it returns the string `"Error contacting model: {e}"`; otherwise it returns
the extracted `content` value unchanged, which is a string exactly when the
endpoint put a string there. -/
theorem c2_ask_ai_never_raises (t : Transport) (prompt : String) :
    (∃ v, askAiCore t = Except.ok v ∧ ask_ai t prompt = v)
    ∨ (∃ e, askAiCore t = Except.error e ∧
        ask_ai t prompt = PyJson.str ("Error contacting model: " ++ e)) := by
  cases heq : askAiCore t with
  | error e => exact Or.inr ⟨e, rfl, by simp [ask_ai, heq]⟩
  | ok v => exact Or.inl ⟨v, rfl, by simp [ask_ai, heq]⟩

/-- A 200 response whose decoded body is well-shaped but carries `null` as
`choices[0].message.content` (as chat APIs do for some finish reasons). -/
def nullContentTransport : Transport :=
  .responds 200 (some (.obj [("choices",
    .arr [.obj [("message", .obj [("content", .null)])]])]))

/-- Counterexample to C2 as stated: on this transport behaviour `ask_ai`
returns Python `None` — not a string — because the code returns
`response.json()["choices"][0]["message"]["content"]` without checking its
type.  (It still does not raise.) -/
theorem c2_counterexample :
    ask_ai nullContentTransport "any prompt" = PyJson.null ∧
    (ask_ai nullContentTransport "any prompt").isStr = false :=
  ⟨rfl, rfl⟩

/-- C6 (amended).  On a successful pipeline, the Conversion Driver writes the
AI Client's returned string to `<output_folder>/<filename>.md` after
stripping its leading and trailing whitespace (`markdown_content.strip()`),
the filename being the `input()` answer, or `<pdf-basename>_AI_formatted`
when the stripped answer is blank. -/
theorem c6_written_file (env : ConvEnv) (pdf_path output_folder : String)
    (images : List RGBImage) (page_texts : List String) (s : String)
    (hras : env.rasterize pdf_path = Except.ok images)
    (hcol : collectResults images.length
        (runWorkers (process_page_for_ocr env.ocr) images env.order)
      = Except.ok page_texts)
    (hstr : ask_ai env.transport (convPrompt (String.join page_texts))
      = PyJson.str s) :
    (convert_pdf_to_ai_markdown env pdf_path output_folder).written =
      some (joinPath output_folder
        ((if pyStrip env.userFilename = ""
          then splitextBase (basename pdf_path) ++ "_AI_formatted"
          else pyStrip env.userFilename) ++ ".md"), pyStrip s) := by
  simp only [convert_pdf_to_ai_markdown, hras, hcol, hstr]

/-- A conversion environment: an empty PDF, and a model response that ends in
a newline character. -/
def trailingNewlineEnv : ConvEnv :=
  ⟨fun _ => Except.ok [], fun _ => Except.ok "", [],
   .responds 200 (some (.obj [("choices",
     .arr [.obj [("message", .obj [("content", .str "hi\n")])]])])), ""⟩

/-- Counterexample to C6 as stated: the AI Client returned `"hi\n"` but the
file receives `"hi"` — the write is not character-for-character. -/
theorem c6_counterexample :
    ask_ai trailingNewlineEnv.transport (convPrompt "") = PyJson.str "hi\n" ∧
    (convert_pdf_to_ai_markdown trailingNewlineEnv "doc.pdf" "vault").written =
      some ("vault/doc_AI_formatted.md", "hi") ∧
    ("hi" : String) ≠ "hi\n" :=
  ⟨rfl, by decide, by decide⟩

/-- Witness for the amended C6 at the concrete environment. -/
theorem c6_written_file_witness :
    (convert_pdf_to_ai_markdown trailingNewlineEnv "doc.pdf" "vault").written =
      some (joinPath "vault"
        ((if pyStrip "" = ""
          then splitextBase (basename "doc.pdf") ++ "_AI_formatted"
          else pyStrip "") ++ ".md"), pyStrip "hi\n") :=
  c6_written_file trailingNewlineEnv "doc.pdf" "vault" [] [] "hi\n" rfl rfl rfl

/-! ## `main`-level claims -/

/-- A transport whose response is a well-formed completion with content `s`. -/
def okTransport (s : String) : Transport :=
  .responds 200 (some (.obj [("choices",
    .arr [.obj [("message", .obj [("content", .str s)])]])]))

/-- A concrete clock value. -/
def sampleDate : PyDateTime := ⟨2026, 10, 12, 9, 30, 5, 0⟩

/-- A concrete, benign conversion environment. -/
def sampleConvEnv : ConvEnv :=
  ⟨fun _ => Except.ok [], fun _ => Except.ok "", [], okTransport "ok", ""⟩

/-- C5.  When no recognized action flag is set (the two boolean flags are
off and every value-taking action flag is absent or empty), `main` prints
only the usage hint: no network call, no file write, no history append, and
the history file is untouched. -/
theorem c5_usage_hint_only (env : MainEnv) (args : Args)
    (h1 : args.neofetch = false) (h2 : args.helpme = false)
    (h3 : optTruthy args.convertnote = false)
    (h4 : optTruthy args.summarize = false)
    (h5 : optTruthy args.question = false)
    (h6 : optTruthy args.quotes = false)
    (h7 : optTruthy args.generate = false)
    (h8 : optTruthy args.wordfor = false)
    (h9 : optTruthy args.dnd = false)
    (h10 : optTruthy args.code = false) :
    mainRun env args = ⟨[.print usageHint], load_history env.historyFile, none⟩
    ∧ (∀ p, Effect.netCall p ∉ (mainRun env args).effects)
    ∧ (∀ p c, Effect.writeFile p c ∉ (mainRun env args).effects)
    ∧ (∀ ts p r, Effect.historyAppend ts p r ∉ (mainRun env args).effects)
    ∧ (mainRun env args).history = load_history env.historyFile := by
  have hp : promptOf args = none := by
    simp [promptOf, h4, h5, h6, h7, h8, h9, h10]
  have hm : mainRun env args =
      ⟨[.print usageHint], load_history env.historyFile, none⟩ := by
    simp [mainRun, h1, h2, h3, hp]
  refine ⟨hm, ?_, ?_, ?_, by rw [hm]⟩
  · intro p
    rw [hm]
    simp
  · intro p c
    rw [hm]
    simp
  · intro ts p r
    rw [hm]
    simp

/-- Arguments with only `--obsidian` supplied — no action flag at all. -/
def idleArgs : Args :=
  ⟨none, none, none, false, false, none, none, none, none, none, some "last_output"⟩

/-- A main environment with a configured vault and benign externals. -/
def idleEnv : MainEnv :=
  ⟨some "/vault", sampleConvEnv, okTransport "ok", sampleDate, none⟩

/-- Witness for C5 at a concrete flagless invocation. -/
theorem c5_usage_hint_only_witness :
    mainRun idleEnv idleArgs =
      ⟨[Effect.print usageHint], load_history idleEnv.historyFile, none⟩
    ∧ (∀ p, Effect.netCall p ∉ (mainRun idleEnv idleArgs).effects)
    ∧ (∀ p c, Effect.writeFile p c ∉ (mainRun idleEnv idleArgs).effects)
    ∧ (∀ ts p r, Effect.historyAppend ts p r ∉ (mainRun idleEnv idleArgs).effects)
    ∧ (mainRun idleEnv idleArgs).history = load_history idleEnv.historyFile :=
  c5_usage_hint_only idleEnv idleArgs rfl rfl rfl rfl rfl rfl rfl rfl rfl rfl

/-- C4 (amended).  The two vault-dependent flags behave differently when the
vault path is not configured.  `--convertnote` is guarded: the configuration
error is printed and `main` returns cleanly without attempting conversion.
`--obsidian` after a prompt action is not guarded: no configuration error is
printed and, with `OBSIDIAN_VAULT_PATH` unset, `os.path.join(None, ...)`
raises an uncaught `TypeError` — the program does not exit cleanly. -/
theorem c4_vault_precondition (env : MainEnv) (args : Args)
    (h1 : args.neofetch = false) (h2 : args.helpme = false) :
    (optTruthy args.convertnote = true → optTruthy env.vaultPath = false →
      mainRun env args =
        ⟨[.print vaultErrorMsg], load_history env.historyFile, none⟩)
    ∧ (∀ p, optTruthy args.convertnote = false → promptOf args = some p →
        optTruthy args.obsidian = true → env.vaultPath = none →
        (mainRun env args).uncaught ≠ none) := by
  constructor
  · intro hcv hv
    simp [mainRun, h1, h2, hcv, hv]
  · intro p hcv hp hob hv
    cases hresp : ask_ai env.transport p with
    | str s => simp [mainRun, h1, h2, hcv, hp, hresp, hob, hv]
    | null => simp [mainRun, h1, h2, hcv, hp, hresp]
    | num n => simp [mainRun, h1, h2, hcv, hp, hresp]
    | arr xs => simp [mainRun, h1, h2, hcv, hp, hresp]
    | obj fs => simp [mainRun, h1, h2, hcv, hp, hresp]

/-- A main environment in which `OBSIDIAN_VAULT_PATH` is unset. -/
def noVaultEnv : MainEnv :=
  ⟨none, sampleConvEnv, okTransport "Because.", sampleDate, none⟩

/-- `-q "why?" -o`: a prompt action plus the bare save-to-Obsidian flag. -/
def questionObsidianArgs : Args :=
  ⟨none, some "why?", none, false, false, none, none, none, none, none,
   some "last_output"⟩

/-- Counterexample to C4 as stated: with the save-to-Obsidian flag supplied
and no vault path configured, the program neither reports the configuration
error nor exits cleanly — it dies on an uncaught `TypeError`. -/
theorem c4_counterexample :
    (mainRun noVaultEnv questionObsidianArgs).uncaught =
      some "TypeError: expected str, bytes or os.PathLike object, not NoneType"
    ∧ Effect.print vaultErrorMsg ∉ (mainRun noVaultEnv questionObsidianArgs).effects := by
  constructor
  · rfl
  · decide

/-- Witness for the amended C4: the `--convertnote` guard at a concrete
invocation with no vault path. -/
theorem c4_vault_precondition_witness :
    mainRun noVaultEnv
        ⟨none, none, none, false, false, none, none, none, none, some "doc.pdf", none⟩ =
      ⟨[Effect.print vaultErrorMsg], load_history noVaultEnv.historyFile, none⟩ :=
  (c4_vault_precondition noVaultEnv
    ⟨none, none, none, false, false, none, none, none, none, some "doc.pdf", none⟩
    rfl rfl).1 rfl rfl

/-! ## Lemmas about timestamps and the history log -/

/-- `Nat.digitChar` of a value below ten is a decimal digit. -/
theorem digitChar_lt_ten_isDigit (k : Nat) (h : k < 10) :
    (Nat.digitChar k).isDigit = true := by
  interval_cases k <;> decide

/-- Every character `digChar` produces is a decimal digit. -/
theorem digChar_isDigit (n : Nat) : (digChar n).isDigit = true :=
  digitChar_lt_ten_isDigit (n % 10) (Nat.mod_lt n (by decide))

/-- `String.toList` of a literal character list. -/
theorem toList_mk (l : List Char) : (String.mk l).toList = l := rfl

/-- Python `isoformat()` output is always a well-formed ISO-8601 timestamp. -/
theorem isoformat_isISO8601 (d : PyDateTime) : isISO8601 (isoformat d) = true := by
  by_cases hms : d.microsecond = 0 <;>
    simp [isISO8601, isoformat, dig4, dig2, dig6, digChar, hms, toList_mk,
      digitChar_lt_ten_isDigit _ (Nat.mod_lt _ (by decide))]

/-- A Python value known to be a string can be projected to it. -/
def strOf : PyJson → String
  | .str s => s
  | _ => ""

/-- `isStr` means the value is literally `PyJson.str (strOf v)`. -/
theorem isStr_eq_str (v : PyJson) (h : v.isStr = true) : v = PyJson.str (strOf v) := by
  cases v <;> simp_all [PyJson.isStr, strOf]

/-- The varying inputs of one prompt invocation of `main` (everything of the
environment except the history file, which is threaded between runs). -/
structure PromptRun where
  vaultPath : Option String
  conv : ConvEnv
  transport : Transport
  now : PyDateTime
  args : Args

/-- Rebuild the `main` environment of a run on top of the current history
file contents. -/
def buildEnv (r : PromptRun) (h : Option (List HistoryEntry)) : MainEnv :=
  ⟨r.vaultPath, r.conv, r.transport, r.now, h⟩

/-- Run a sequence of `main` invocations, threading the history file, and
return the final history-file contents. -/
def runMainSeq : List PromptRun → Option (List HistoryEntry) → List HistoryEntry
  | [], h => load_history h
  | r :: rest, h => runMainSeq rest (some (mainRun (buildEnv r h) r.args).history)

/-- The history entry a prompt invocation writes. -/
def runEntry (r : PromptRun) : HistoryEntry :=
  ⟨isoformat r.now, (promptOf r.args).getD "",
   strOf (ask_ai r.transport ((promptOf r.args).getD ""))⟩

/-- A run that reaches the `save_history` call: a prompt flag is selected
(no higher-priority branch fires) and the model's content value is a string
(so `response.strip()` does not raise first). -/
def PromptRunOK (r : PromptRun) : Prop :=
  r.args.neofetch = false ∧ r.args.helpme = false ∧
  optTruthy r.args.convertnote = false ∧ (promptOf r.args).isSome = true ∧
  (ask_ai r.transport ((promptOf r.args).getD "")).isStr = true

/-- A prompt invocation rewrites the history file to the old entries,
unchanged and in order, plus exactly one new entry at the end. -/
theorem mainRun_prompt_history (env : MainEnv) (args : Args) (p s : String)
    (h1 : args.neofetch = false) (h2 : args.helpme = false)
    (h3 : optTruthy args.convertnote = false)
    (hp : promptOf args = some p)
    (hs : ask_ai env.transport p = PyJson.str s) :
    (mainRun env args).history =
      load_history env.historyFile ++ [⟨isoformat env.now, p, s⟩] := by
  by_cases hob : optTruthy args.obsidian = true
  · cases hv : env.vaultPath <;>
      simp [mainRun, h1, h2, h3, hp, hs, hob, hv, save_history]
  · simp [mainRun, h1, h2, h3, hp, hs, hob, save_history]

/-- Threading `K` prompt invocations through the history file appends the
`K` run entries, in call order, after the initial contents. -/
theorem runMainSeq_appends (runs : List PromptRun) :
    ∀ h0 : Option (List HistoryEntry), (∀ r ∈ runs, PromptRunOK r) →
      runMainSeq runs h0 = load_history h0 ++ runs.map runEntry := by
  induction runs with
  | nil =>
    intro h0 _
    simp [runMainSeq]
  | cons r rest ih =>
    intro h0 hok
    obtain ⟨hnf, hh, hcv, hsome, hstr⟩ := hok r (List.mem_cons_self r rest)
    obtain ⟨p, hp⟩ := Option.isSome_iff_exists.mp hsome
    have hs : ask_ai r.transport p = PyJson.str (strOf (ask_ai r.transport p)) := by
      have := isStr_eq_str _ (by rw [hp] at hstr; simpa using hstr)
      simpa [hp] using this
    have hstep : (mainRun (buildEnv r h0) r.args).history =
        load_history h0 ++ [runEntry r] := by
      have := mainRun_prompt_history (buildEnv r h0) r.args p
        (strOf (ask_ai r.transport p)) hnf hh hcv hp (by exact hs)
      simpa [buildEnv, runEntry, hp] using this
    have ihr := ih (some ((mainRun (buildEnv r h0) r.args).history))
      (fun x hx => hok x (List.mem_cons_of_mem r hx))
    calc runMainSeq (r :: rest) h0
        = runMainSeq rest (some ((mainRun (buildEnv r h0) r.args).history)) := rfl
      _ = load_history (some ((mainRun (buildEnv r h0) r.args).history)) ++
            rest.map runEntry := ihr
      _ = (load_history h0 ++ [runEntry r]) ++ rest.map runEntry := by
            rw [show load_history (some ((mainRun (buildEnv r h0) r.args).history)) =
              (mainRun (buildEnv r h0) r.args).history from rfl, hstep]
      _ = load_history h0 ++ (r :: rest).map runEntry := by simp

/-- C7.  `save_history` preserves every previously written entry unchanged
and in order and appends exactly one entry; consequently, starting from any
history file, `K` prompt invocations leave the log holding the old entries
followed by exactly `K` new `{timestamp, prompt, response}` entries in call
order, every timestamp a well-formed ISO-8601 string. -/
theorem c7_history_monotone (runs : List PromptRun)
    (h0 : Option (List HistoryEntry)) (hok : ∀ r ∈ runs, PromptRunOK r) :
    runMainSeq runs h0 = load_history h0 ++ runs.map runEntry
    ∧ (runMainSeq runs h0).length = (load_history h0).length + runs.length
    ∧ (∀ e ∈ runs.map runEntry, isISO8601 e.timestamp = true)
    ∧ (∀ h e, save_history h e = h ++ [e]) := by
  have main_eq := runMainSeq_appends runs h0 hok
  refine ⟨main_eq, ?_, ?_, fun h e => rfl⟩
  · rw [main_eq]
    simp
  · intro e he
    obtain ⟨r, _, hr⟩ := List.mem_map.mp he
    rw [← hr]
    exact isoformat_isISO8601 r.now

/-- Two concrete prompt invocations for exercising the history log. -/
def historyRuns : List PromptRun :=
  [⟨some "/vault", sampleConvEnv, okTransport "Paris.", sampleDate,
    ⟨none, some "capital of France?", none, false, false, none, none, none,
     none, none, none⟩⟩,
   ⟨some "/vault", sampleConvEnv, okTransport "A poem.", ⟨2026, 10, 12, 9, 31, 0, 250000⟩,
    ⟨none, none, none, false, false, some "a poem", none, none, none, none,
     some "last_output"⟩⟩]

/-- Witness for C7: after the two concrete invocations the log holds exactly
their two entries, in call order. -/
theorem c7_history_monotone_witness :
    runMainSeq historyRuns none = load_history none ++ historyRuns.map runEntry
    ∧ (runMainSeq historyRuns none).length =
        (load_history none).length + historyRuns.length := by
  have hok : ∀ r ∈ historyRuns, PromptRunOK r := by
    intro r hr
    rcases List.mem_cons.mp hr with h | hr
    · subst h
      exact ⟨rfl, rfl, rfl, rfl, rfl⟩
    rcases List.mem_cons.mp hr with h | hr
    · subst h
      exact ⟨rfl, rfl, rfl, rfl, rfl⟩
    · cases hr
  exact ⟨(c7_history_monotone historyRuns none hok).1,
         (c7_history_monotone historyRuns none hok).2.1⟩

/-! ## Lemmas about the image pipeline (C8, C9) -/

/-- `getD` through `map` at an in-range index. -/
theorem getD_map_of_lt {α β : Type} (f : α → β) (l : List α) (d : β) (d0 : α)
    (i : Nat) (h : i < l.length) :
    (l.map f).getD i d = f (l.getD i d0) := by
  rw [List.getD_eq_getElem?_getD, List.getD_eq_getElem?_getD,
    List.getElem?_eq_getElem (by simpa using h), List.getElem?_eq_getElem h]
  simp

/-- `convertL` then `binarize` rewrites every row by a single pixel map. -/
theorem binarize_convertL_eq_map (img : RGBImage) :
    binarize (convertL img) =
      img.map (fun row => row.map (fun p => binarizePix (lumPix p))) := by
  simp [binarize, convertL, List.map_map]

/-- The width survives `convertL` and `binarize`. -/
theorem imgWidth_binarize_convertL (img : RGBImage) :
    imgWidth (binarize (convertL img)) = imgWidth img := by
  cases img with
  | nil => rfl
  | cons r rest => simp [binarize, convertL, imgWidth]

/-- Rectangularity survives `convertL` and `binarize`. -/
theorem Rect_binarize_convertL (img : RGBImage) (hrect : Rect img) :
    Rect (binarize (convertL img)) := by
  intro row hrow
  rw [binarize_convertL_eq_map] at hrow
  obtain ⟨r, hr, hrow_eq⟩ := List.mem_map.mp hrow
  rw [← hrow_eq, imgWidth_binarize_convertL]
  simpa using hrect r hr

/-- `sharpen` never changes the number of rows. -/
theorem sharpen_length (g : GrayImage) : (sharpen g).length = g.length := by
  unfold sharpen
  by_cases h : g.length < 3 ∨ imgWidth g < 3 <;> simp [h]

/-- On a rectangular raster, `sharpen` keeps every row at the same width. -/
theorem sharpen_rows (g : GrayImage) (hrect : Rect g) :
    ∀ row ∈ sharpen g, row.length = imgWidth g := by
  unfold sharpen
  by_cases h : g.length < 3 ∨ imgWidth g < 3
  · simp only [h, if_true]
    exact hrect
  · simp only [h, if_false]
    intro row hrow
    obtain ⟨y, _, hrow_eq⟩ := List.mem_map.mp hrow
    rw [← hrow_eq]
    simp

/-- C8.  `preprocess_image` is total on every raster (no error condition),
keeps the dimensions, and is exactly one sharpening pass applied to the
image binarized at luminance threshold 140: before sharpening, a pixel of
luminance below 140 is black (0) and every other pixel is white (255). -/
theorem c8_preprocess_pipeline (img : RGBImage) (hrect : Rect img) :
    (preprocess_image img).length = img.length
    ∧ (∀ row ∈ preprocess_image img, row.length = imgWidth img)
    ∧ preprocess_image img = sharpen (binarize (convertL img))
    ∧ (∀ y x, y < img.length → x < imgWidth img →
        gpix (binarize (convertL img)) y x =
          if lumPix ((img.getD y []).getD x (0, 0, 0)) < 140 then 0 else 255)
    ∧ (∀ row ∈ binarize (convertL img), ∀ v ∈ row, v = 0 ∨ v = 255) := by
  refine ⟨?_, ?_, rfl, ?_, ?_⟩
  · unfold preprocess_image
    rw [sharpen_length]
    simp [binarize, convertL]
  · intro row hrow
    unfold preprocess_image at hrow
    have := sharpen_rows (binarize (convertL img))
      (Rect_binarize_convertL img hrect) row hrow
    rwa [imgWidth_binarize_convertL] at this
  · intro y x hy hx
    unfold gpix
    rw [binarize_convertL_eq_map]
    rw [getD_map_of_lt _ img [] [] y hy]
    have hmem : img.getD y [] ∈ img := by
      rw [List.getD_eq_getElem?_getD, List.getElem?_eq_getElem hy]
      exact List.getElem_mem hy
    have hxlen : x < (img.getD y []).length := by
      rw [hrect _ hmem]
      exact hx
    rw [getD_map_of_lt _ (img.getD y []) 0 (0, 0, 0) x hxlen]
    rfl
  · intro row hrow v hv
    rw [binarize_convertL_eq_map] at hrow
    obtain ⟨r, _, hrow_eq⟩ := List.mem_map.mp hrow
    rw [← hrow_eq] at hv
    obtain ⟨p, _, hv_eq⟩ := List.mem_map.mp hv
    rw [← hv_eq]
    unfold binarizePix
    by_cases h : lumPix p < 140 <;> simp [h]

/-- A concrete rectangular 3×3 test image. -/
def sampleCard : RGBImage :=
  [[(0, 0, 0), (200, 200, 200), (10, 20, 30)],
   [(255, 255, 255), (100, 120, 140), (0, 0, 0)],
   [(5, 5, 5), (250, 250, 250), (139, 139, 139)]]

/-- Witness for C8 at the concrete image. -/
theorem c8_preprocess_pipeline_witness :
    (preprocess_image sampleCard).length = sampleCard.length
    ∧ (∀ row ∈ preprocess_image sampleCard, row.length = imgWidth sampleCard)
    ∧ preprocess_image sampleCard = sharpen (binarize (convertL sampleCard))
    ∧ (∀ y x, y < sampleCard.length → x < imgWidth sampleCard →
        gpix (binarize (convertL sampleCard)) y x =
          if lumPix ((sampleCard.getD y []).getD x (0, 0, 0)) < 140 then 0 else 255)
    ∧ (∀ row ∈ binarize (convertL sampleCard), ∀ v ∈ row, v = 0 ∨ v = 255) :=
  c8_preprocess_pipeline sampleCard (by
    intro row hrow
    fin_cases hrow <;> rfl)

/-- C9.  `preprocess_image` is deterministic (it is a function of its input)
and, on an image whose pixels are already pure black or pure white,
greyscale conversion and thresholding change nothing — a second application
is exactly the sharpening pass. -/
theorem c9_idempotent_on_binary (img : RGBImage)
    (hbw : ∀ row ∈ img, ∀ p ∈ row, p = (0, 0, 0) ∨ p = (255, 255, 255)) :
    binarize (convertL img) = convertL img
    ∧ preprocess_image img = sharpen (convertL img) := by
  have hb : binarize (convertL img) = convertL img := by
    rw [binarize_convertL_eq_map]
    unfold convertL
    apply List.map_congr_left
    intro r hr
    apply List.map_congr_left
    intro p hp
    rcases hbw r hr p hp with h | h <;> rw [h] <;> decide
  exact ⟨hb, by unfold preprocess_image; rw [hb]⟩

/-- A concrete already-binarized 3×3 image. -/
def blackWhiteCard : RGBImage :=
  [[(0, 0, 0), (255, 255, 255), (0, 0, 0)],
   [(255, 255, 255), (255, 255, 255), (0, 0, 0)],
   [(0, 0, 0), (0, 0, 0), (255, 255, 255)]]

/-- Witness for C9 at the concrete black-and-white image. -/
theorem c9_idempotent_on_binary_witness :
    binarize (convertL blackWhiteCard) = convertL blackWhiteCard
    ∧ preprocess_image blackWhiteCard = sharpen (convertL blackWhiteCard) :=
  c9_idempotent_on_binary blackWhiteCard (by decide)

/-- The prompt-action tail of `main` (ask, print, log, optional vault save),
as a function of the environment, the `--obsidian` value and the chosen
prompt only — no other flag can influence it. -/
def promptBranch (env : MainEnv) (obsidian : Option String) (prompt : String) :
    MainOutcome :=
  match ask_ai env.transport prompt with
  | .str response =>
    let e1 : List Effect :=
      [.print "\n Thinking...\n", .netCall prompt,
       .print (" Response:\n" ++ pyStrip response)]
    let entry : HistoryEntry := ⟨isoformat env.now, prompt, response⟩
    let hist := save_history (load_history env.historyFile) entry
    let e2 := e1 ++ [.historyAppend entry.timestamp entry.prompt entry.response]
    if optTruthy obsidian then
      let fn := obsidian.getD ""
      let filename := if fn == "last_output"
        then "jester_" ++ strftimeStamp env.now else fn
      match env.vaultPath with
      | none =>
        ⟨e2, hist,
         some "TypeError: expected str, bytes or os.PathLike object, not NoneType"⟩
      | some v =>
        ⟨e2 ++ [.writeFile (joinPath v (filename ++ ".md")) response,
                .print ("\nSaved to Obsidian as " ++ filename ++ ".md")],
         hist, none⟩
    else ⟨e2, hist, none⟩
  | _ =>
    ⟨[.print "\n Thinking...\n", .netCall prompt],
     load_history env.historyFile,
     some "AttributeError: the response value has no attribute strip"⟩

/-- C10.  Exactly one primary action runs, selected by the fixed priority
`neofetch`, `helpme`, `convertnote`, then the prompt chain `summarize`,
`question`, `quotes`, `generate`, `wordfor`, `dnd`, `code`; every
lower-priority flag is ignored (each selected branch is a function only of
the data that branch uses), except `--obsidian`, which additionally applies
after a prompt action (it is an argument of `promptBranch`). -/
theorem c10_flag_priority (env : MainEnv) (args : Args) :
    (args.neofetch = true →
      mainRun env args =
        ⟨[.print introBanner, .print "Jester here. How may I serve thee?\n"],
         load_history env.historyFile, none⟩)
    ∧ (args.neofetch = false → args.helpme = true →
        mainRun env args = ⟨[.print helpText], load_history env.historyFile, none⟩)
    ∧ (args.neofetch = false → args.helpme = false →
        optTruthy args.convertnote = true →
        mainRun env args =
          if optTruthy env.vaultPath = false then
            ⟨[.print vaultErrorMsg], load_history env.historyFile, none⟩
          else
            ⟨(convert_pdf_to_ai_markdown env.conv
                (stripQuotes (args.convertnote.getD "")) (env.vaultPath.getD "")).effects,
             load_history env.historyFile, none⟩)
    ∧ (∀ p, args.neofetch = false → args.helpme = false →
        optTruthy args.convertnote = false → promptOf args = some p →
        mainRun env args = promptBranch env args.obsidian p)
    ∧ (args.neofetch = false → args.helpme = false →
        optTruthy args.convertnote = false → promptOf args = none →
        mainRun env args = ⟨[.print usageHint], load_history env.historyFile, none⟩)
    ∧ (optTruthy args.summarize = true →
        promptOf args = some ("In markdown format: Summarize " ++
          args.summarize.getD "" ++
          " into a medium length understandable form, around one or two paragraphs."))
    ∧ (optTruthy args.summarize = false → optTruthy args.question = true →
        promptOf args = some
          ("In markdown format: Quickly answer the question (1 line), then give a more detailed summary: "
            ++ args.question.getD ""))
    ∧ (optTruthy args.summarize = false → optTruthy args.question = false →
        optTruthy args.quotes = true →
        promptOf args = some ("In markdown format: Show 10 interesting quotes from \x27"
          ++ args.quotes.getD "" ++ "\x27, with who said it, when, and some context."))
    ∧ (optTruthy args.summarize = false → optTruthy args.question = false →
        optTruthy args.quotes = false → optTruthy args.generate = true →
        promptOf args = some ("In markdown format: Generate something based on: "
          ++ args.generate.getD ""))
    ∧ (optTruthy args.summarize = false → optTruthy args.question = false →
        optTruthy args.quotes = false → optTruthy args.generate = false →
        optTruthy args.wordfor = true →
        promptOf args = some
          ("In markdown format: Give 5 close matches, 5 far matches, 3 expressions, 2 metaphors, and 3 made-up fantasy-like words to explain: "
            ++ args.wordfor.getD ""))
    ∧ (optTruthy args.summarize = false → optTruthy args.question = false →
        optTruthy args.quotes = false → optTruthy args.generate = false →
        optTruthy args.wordfor = false → optTruthy args.dnd = true →
        promptOf args = some
          ("In markdown format: Answer this D&D question simply, then give a detailed explanation: "
            ++ args.dnd.getD ""))
    ∧ (optTruthy args.summarize = false → optTruthy args.question = false →
        optTruthy args.quotes = false → optTruthy args.generate = false →
        optTruthy args.wordfor = false → optTruthy args.dnd = false →
        optTruthy args.code = true →
        promptOf args = some ("Make code for this problem in the language stated: "
          ++ args.code.getD "")) := by
  refine ⟨?_, ?_, ?_, ?_, ?_, ?_, ?_, ?_, ?_, ?_, ?_, ?_⟩
  · intro h
    simp [mainRun, h]
  · intro h1 h2
    simp [mainRun, h1, h2]
  · intro h1 h2 h3
    by_cases hv : optTruthy env.vaultPath = false <;> simp [mainRun, h1, h2, h3, hv]
  · intro p h1 h2 h3 hp
    simp [mainRun, promptBranch, h1, h2, h3, hp]
  · intro h1 h2 h3 hp
    simp [mainRun, h1, h2, h3, hp]
  · intro h
    simp [promptOf, h]
  · intro h1 h2
    simp [promptOf, h1, h2]
  · intro h1 h2 h3
    simp [promptOf, h1, h2, h3]
  · intro h1 h2 h3 h4
    simp [promptOf, h1, h2, h3, h4]
  · intro h1 h2 h3 h4 h5
    simp [promptOf, h1, h2, h3, h4, h5]
  · intro h1 h2 h3 h4 h5 h6
    simp [promptOf, h1, h2, h3, h4, h5, h6]
  · intro h1 h2 h3 h4 h5 h6 h7
    simp [promptOf, h1, h2, h3, h4, h5, h6, h7]

/-- Witness for C10: with both `-nf` and `-hh` set, `neofetch` wins and the
help text is never printed. -/
theorem c10_flag_priority_witness :
    mainRun idleEnv ⟨none, none, none, true, true, none, none, none, none, none, none⟩ =
      ⟨[Effect.print introBanner, Effect.print "Jester here. How may I serve thee?\n"],
       load_history idleEnv.historyFile, none⟩ :=
  (c10_flag_priority idleEnv
    ⟨none, none, none, true, true, none, none, none, none, none, none⟩).1 rfl
